import Mathlib

/-!
Verification development for the Simple OBJ Exporter/Importer scripts
(src/scripts/SimpleObjExporter.py and src/scripts/SimpleObjImporter.py).

The Python scripts are shallowly embedded below.  Host (Maya) commands are
modelled as an explicit trace of `Event`s, and the places where the host can
fail (the `cmds.file` translator calls) are parameterized by an oracle giving
the host's answer, so that the scripts' own control flow — validation,
branching, try/except totalization, counting — is captured exactly.
-/

/-! ## clean_filename (SimpleObjExporter.py lines 37-53)

Python: `filename = node.strip(' :|')` followed by
`filename = filename.replace(':', '_')` and `filename = filename.replace('|', '_')`.

`str.strip(chars)` removes every leading and every trailing character drawn
from the set; it is embedded as a `dropWhile` on the front and, via
`reverse`, on the back.  `str.replace(old, new)` with single-character
arguments replaces every occurrence, i.e. maps over the characters. -/

/-- Membership test for the strip set of `node.strip(' :|')`. -/
def isStripChar (c : Char) : Bool :=
  c = ' ' || c = ':' || c = '|'

/-- Python `s.strip(' :|')` on a character list: remove leading and trailing
characters of the strip set. -/
def stripStripChars (l : List Char) : List Char :=
  (((l.dropWhile isStripChar).reverse.dropWhile isStripChar)).reverse

/-- Python `s.replace(old, new)` for single characters: map every occurrence
of `old` to `new`. -/
def replaceChar (old new : Char) (l : List Char) : List Char :=
  l.map fun c => if c = old then new else c

/-- Character-list body of `clean_filename`:
strip `' :|'`, then replace `':'` and `'|'` by `'_'`. -/
def cleanFilenameChars (l : List Char) : List Char :=
  replaceChar '|' '_' (replaceChar ':' '_' (stripStripChars l))

/-- Embedding of `clean_filename` (SimpleObjExporter.py lines 37-53). -/
def clean_filename (s : String) : String :=
  ⟨cleanFilenameChars s.data⟩

/-! ## Export parameters and build_obj_options_string

`self.params` (SimpleObjExporter.py lines 250-263) is a flat record of two
path strings and ten booleans. -/

/-- The `self.params` dict of `SimpleObjExporter` (lines 250-263). -/
structure Params where
  export_path : String
  batch_export_path : String
  always_ask : Bool
  triangulate_mesh : Bool
  move_to_origin : Bool
  combine : Bool
  use_native_style : Bool
  obj_groups : Bool
  obj_ptgroups : Bool
  obj_materials : Bool
  obj_smoothing : Bool
  obj_normals : Bool
deriving DecidableEq, Repr

/-- Embedding of `build_obj_options_string` (lines 510-540): each of the five OBJ flags
is rendered as `'1'`/`'0'` via an if/else, and the results are interpolated
into `'groups={0};ptgroups={1};materials={2};smoothing={3};normals={4}'`. -/
def build_obj_options_string (p : Params) : String :=
  let groups := if p.obj_groups then "1" else "0"
  let ptgroups := if p.obj_ptgroups then "1" else "0"
  let materials := if p.obj_materials then "1" else "0"
  let smoothing := if p.obj_smoothing then "1" else "0"
  let normals := if p.obj_normals then "1" else "0"
  "groups=" ++ groups ++ ";ptgroups=" ++ ptgroups ++ ";materials=" ++ materials ++
    ";smoothing=" ++ smoothing ++ ";normals=" ++ normals

/-! ## Host-command trace model

Each Maya command issued by the script is recorded as an `Event`.  The two
`cmds.file` translator calls are the only host commands the script guards
with try/except; their outcome is supplied by an oracle argument
(`Except String String` for export: `.ok out_file` or a `RuntimeError`
message; `Option String` for import: `some e` is a `RuntimeError e`).
`os.path.normpath` on the returned path is modelled as the identity. -/

/-- Trace of host (Maya) commands and user-visible messages. -/
inductive Event where
  | displayInfo (msg : String)
  | displayWarning (msg : String)
  | displayError (msg : String)
  | duplicate (node newName : String)
  | selectReplace (nodes : List String)
  | polyTriangulate
  | groupEmpty (name : String)
  | pointConstrain (target driven : String)
  | deletePointConstraint (target driven : String)
  | deleteNode (node : String)
  | fileExport (path options : String)
  | fileImport (path : String)
deriving DecidableEq, Repr

/-- Embedding of `preprocess_mesh` (lines 474-492): triangulate when
`params['triangulate_mesh']`; when `params['move_to_origin']`, create an
empty group at the origin, point-constrain the mesh to it, then delete the
constraint and the group. -/
def preprocess_mesh (p : Params) (mesh : String) : List Event :=
  (if p.triangulate_mesh then
    [Event.selectReplace [mesh], Event.polyTriangulate]
  else []) ++
  (if p.move_to_origin then
    [Event.groupEmpty "temp_loc", Event.pointConstrain "temp_loc" mesh,
     Event.deletePointConstraint "temp_loc" mesh, Event.deleteNode "temp_loc"]
  else [])

/-- Name of the working duplicate created by `export_mesh`
(`cmds.duplicate(mesh, name='{0}_export'.format(mesh))`, line 454). -/
def dupeName (mesh : String) : String :=
  mesh ++ "_export"

/-- Embedding of `export_mesh` (lines 444-472).  `exportOracle` is the host's answer to
`cmds.file(..., exportSelected=True, ...)`: `.ok out_file` on success,
`.error e` when the translator raises `RuntimeError e`.  Returns the `result`
boolean together with the command trace.  The try/except/finally is embedded
by casing on the oracle: both branches end with the `finally` block
(delete the duplicate, reselect the original mesh). -/
def export_mesh (p : Params) (exportOracle : String → Except String String)
    (mesh : String) : Bool × List Event :=
  let file_path := p.export_path
  let dupe := dupeName mesh
  let pre := Event.duplicate mesh dupe :: preprocess_mesh p dupe ++ [Event.selectReplace [dupe]]
  match exportOracle file_path with
  | Except.ok out_file =>
      (true, pre ++
        [Event.fileExport file_path (build_obj_options_string p),
         Event.displayInfo ("Successfully exported to " ++ out_file),
         Event.deleteNode dupe, Event.selectReplace [mesh]])
  | Except.error e =>
      (false, pre ++
        [Event.fileExport file_path (build_obj_options_string p),
         Event.displayError ("Unable to export " ++ mesh ++ ": " ++ e),
         Event.deleteNode dupe, Event.selectReplace [mesh]])

/-- The per-mesh file path that `export_batch` builds (line 425):
`os.path.join(batch_export_path, clean_filename(mesh) + '.obj')`, with
`os.path.normpath` and backslash normalization modelled as the plain
forward-slash join. -/
def batch_file_path (batchDir mesh : String) : String :=
  batchDir ++ "/" ++ clean_filename mesh ++ ".obj"

/-- The aggregate message format of `export_batch` (lines 440-442). -/
def batchReportMsg (successful total : Nat) : String :=
  "Successfully exported " ++ toString successful ++ " of " ++ toString total ++ " meshes"

/-- The counting loop of `export_batch` (lines 421-436): for each mesh,
set `params['export_path']` to the per-mesh batch path, attempt
`export_mesh`, and bump the `successful`/`failed` counter on its boolean
result.  Returns `(successful, failed, trace)`. -/
def export_batch_loop (p : Params) (exportOracle : String → Except String String) :
    List String → Nat × Nat × List Event
  | [] => (0, 0, [])
  | curr_mesh :: rest =>
    let file_path := batch_file_path p.batch_export_path curr_mesh
    let r := export_mesh { p with export_path := file_path } exportOracle curr_mesh
    let acc := export_batch_loop p exportOracle rest
    if r.1 then (acc.1 + 1, acc.2.1, r.2 ++ acc.2.2)
    else (acc.1, acc.2.1 + 1, r.2 ++ acc.2.2)

/-- Embedding of `export_batch` (lines 400-442), from after the optional always-ask
dialog.  `validDir` is the result of `validate_dir_path(batch_export_path)`
(a filesystem probe, supplied as an oracle): when false the function bails
out with an error before the loop; otherwise it runs the loop and reports
the aggregate count, as a warning when any mesh failed, else as info. -/
def export_batch (p : Params) (validDir : Bool)
    (exportOracle : String → Except String String) (meshes : List String) : List Event :=
  if !validDir then
    [Event.displayError ("Batch export path not valid: " ++ p.batch_export_path)]
  else
    let r := export_batch_loop p exportOracle meshes
    r.2.2 ++
      [if r.2.1 > 0 then Event.displayWarning (batchReportMsg r.1 (r.1 + r.2.1))
       else Event.displayInfo (batchReportMsg r.1 (r.1 + r.2.1))]

/-! ## Import side

`show_import_options` (SimpleObjExporter.py lines 613-633), `import_pressed`
(lines 592-611) and `SimpleObjImporter.show_path_dialog`
(SimpleObjImporter.py lines 61-68).  The file dialog's answer is supplied as
`Option (List String)` (`none` = user cancelled), matching
`cmds.fileDialog2`'s `stringArray or None` contract. -/

/-- Embedding of `show_import_options` (lines 613-633): when the dialog returns a path
list, store it in `self.import_paths` and return `True`; on `None` return
`False` leaving the stored list unchanged. -/
def show_import_options (dialogResult : Option (List String))
    (import_paths : List String) : List String × Bool :=
  match dialogResult with
  | some path => (path, true)
  | none => (import_paths, false)

/-- The import loop of `import_pressed` (lines 605-611): each path gets a
`cmds.file(..., i=True, ...)` attempt; a `RuntimeError e` (oracle answer
`some e`) is caught and reported per item, and the loop continues. -/
def import_loop (importOracle : String → Option String) : List String → List Event
  | [] => []
  | import_path :: rest =>
    (match importOracle import_path with
     | none => [Event.fileImport import_path]
     | some e =>
        [Event.fileImport import_path,
         Event.displayError ("Unable to import OBJ file " ++ import_path ++ ", due to " ++ e)]) ++
    import_loop importOracle rest

/-- Embedding of `import_pressed` (lines 592-611): when no paths are stored, run
`show_import_options`; if that fails, warn and return.  Otherwise loop over
the stored paths.  Returns the updated `self.import_paths` and the trace. -/
def import_pressed (dialogResult : Option (List String))
    (importOracle : String → Option String)
    (import_paths : List String) : List String × List Event :=
  if import_paths.length = 0 then
    let r := show_import_options dialogResult import_paths
    if r.2 then (r.1, import_loop importOracle r.1)
    else (r.1, [Event.displayWarning "No valid paths for import set!"])
  else
    (import_paths, import_loop importOracle import_paths)

/-- Embedding of `SimpleObjImporter.show_path_dialog` (SimpleObjImporter.py lines 61-68):
`self.import_path` is overwritten only when the dialog did not return
`None`. -/
def show_path_dialog (dialogResult : Option (List String))
    (import_path : Option (List String)) : Option (List String) :=
  match dialogResult with
  | some path => some path
  | none => import_path

/-! ## Settings resolution (init_export_params / load_attributes / save_attributes)

`load_attributes` (lines 636-647) and `save_attributes` (lines 649-662) loop
uniformly over the twelve keys of `param_attr_map`, so the configuration
tiers are embedded key-indexed: an attribute store is a partial map from
keys to values, and a params dict a total one.  Mesh nodes carry their own
attribute stores (`meshAttrs`) — the claimed per-mesh override tier. -/

/-- The twelve keys of `param_attr_map` (lines 272-285). -/
inductive ParamKey where
  | export_path | batch_export_path | always_ask | triangulate_mesh
  | move_to_origin | combine | use_native_style | obj_groups
  | obj_ptgroups | obj_materials | obj_smoothing | obj_normals
deriving DecidableEq, Repr

/-- A parameter value: a path string or a boolean flag. -/
abbrev PValue := String ⊕ Bool

/-- The stores consulted by `init_export_params` and the export flow:
the scene settings node, the JSON defaults file, and the user-defined
attributes of each mesh node. -/
structure ConfigState where
  sceneNodeExists : Bool
  sceneAttrs : ParamKey → Option PValue
  jsonExists : Bool
  jsonParams : ParamKey → PValue
  meshAttrs : String → ParamKey → Option PValue

/-- Embedding of `load_attributes(node)` (lines 636-647): for each key, overwrite
`self.params[key]` with the node's attribute when it exists, keeping the
current value otherwise. -/
def load_attributes (attrs : ParamKey → Option PValue)
    (params : ParamKey → PValue) : ParamKey → PValue :=
  fun k => (attrs k).getD (params k)

/-- Embedding of `save_attributes(node)` (lines 649-662): set every key's attribute on
the node from `self.params`. -/
def save_attributes (params : ParamKey → PValue) : ParamKey → Option PValue :=
  fun k => some (params k)

/-- Embedding of `init_export_params` (lines 292-319): if the scene node exists, load its
attributes over the current params; otherwise read the JSON defaults when
present, then create the scene node and save the params onto it. -/
def init_export_params (st : ConfigState) (params : ParamKey → PValue) :
    (ParamKey → PValue) × ConfigState :=
  if st.sceneNodeExists then
    (load_attributes st.sceneAttrs params, st)
  else
    let params1 := if st.jsonExists then st.jsonParams else params
    (params1,
     { st with sceneNodeExists := true, sceneAttrs := save_attributes params1 })

/-- The params in effect when `export_mesh` runs for a given mesh, along the
source's export flow: `export_pressed` calls `init_export_params` (lines
341-342), then `export_selection` re-runs `load_attributes` on the scene
node (line 355) and goes on to export with `self.params`; no further
attribute read happens before the `cmds.file` export call.  The exported
mesh's name is taken as an argument so that (in)dependence of the result on
that mesh's own override attributes is expressible. -/
def params_at_export (st : ConfigState) (params0 : ParamKey → PValue)
    (mesh : String) : ParamKey → PValue :=
  let r := init_export_params st params0
  load_attributes r.2.sceneAttrs r.1

/-! ## Selection validation (export_pressed) -/

/-- Outcome of `export_pressed` (lines 321-343). -/
inductive PressedOutcome where
  | showOptions
  | errorNotMesh (node : String)
  | exported (selection : List String)
deriving DecidableEq, Repr

/-- Embedding of `export_pressed` (lines 321-343): with an empty transform selection,
show the options dialog instead; otherwise scan the selection in order and
bail out with an error naming the first node whose `listRelatives(...,
shapes=True)` is `None` (`shapes` is the host's answer to that query);
with all checks passed, refresh params and export the selection. -/
def export_pressed (shapes : String → Option (List String))
    (selection : List String) : PressedOutcome :=
  if selection.length = 0 then
    PressedOutcome.showOptions
  else
    match selection.find? (fun node => (shapes node).isNone) with
    | some node => PressedOutcome.errorNotMesh node
    | none => PressedOutcome.exported selection

/-! ## Dispatch (export_selection / combine_meshes)

`export_selection` (lines 345-379) is embedded at the granularity of the
calls it makes: `export_single` and `export_batch` are recorded as single
steps, and `combine_meshes` (lines 494-508) as its three host commands.
`combinedName` stands for the name Maya returns from `polyUnite`
(`combined[0]`). -/

/-- One step of the `export_selection` dispatch. -/
inductive Step where
  | loadSceneParams
  | exportSingle (mesh : String)
  | duplicateAll (meshes : List String)
  | polyUniteTo (combined : String)
  | deleteHistory (node : String)
  | deleteNode (node : String)
  | exportBatch (meshes : List String)
  | fatalEmptySelection
  | selectReplace (selection : List String)
deriving DecidableEq, Repr

/-- Embedding of `combine_meshes` (lines 494-508): duplicate the meshes, `polyUnite` the
duplicates, delete construction history, return the combined mesh's name. -/
def combine_meshes (meshes : List String) (combinedName : String) :
    String × List Step :=
  (combinedName,
   [Step.duplicateAll meshes, Step.polyUniteTo combinedName,
    Step.deleteHistory combinedName])

/-- Embedding of `export_selection` (lines 345-379): reload scene params, dispatch on the
selection length and the `combine` flag, then reload scene params and
restore the original selection. -/
def export_selection (p : Params) (combinedName : String)
    (selection : List String) : List Step :=
  Step.loadSceneParams ::
  (match selection with
   | [] => [Step.fatalEmptySelection]
   | [mesh] => [Step.exportSingle mesh]
   | _ :: _ :: _ =>
     if p.combine then
       let r := combine_meshes selection combinedName
       r.2 ++ [Step.exportSingle r.1, Step.deleteNode r.1]
     else
       [Step.exportBatch selection]) ++
  [Step.loadSceneParams, Step.selectReplace selection]

/-! ## Shelf-button entry points

The four classmethods of `SimpleObjExporter` (lines 206-234) and the two of
`SimpleObjImporter` (lines 26-38) all follow the pattern
`if not cls.class_instance: cls.class_instance = Cls()`.  A session holds
one `class_instance` cell per class; pressing a button creates an instance
only when that class's cell is empty.  Instances are numbered so that
persistence of the stored instance is expressible; the step function also
reports how many instances of each class it created. -/

/-- The six shelf-button entry points. -/
inductive ShelfButton where
  | export_shelf_button
  | export_shelf_button_alt
  | import_shelf_button
  | import_shelf_button_alt
  | importer_shelf_button_clicked
  | importer_shelf_button_alt_clicked
deriving DecidableEq, Repr

/-- Does the button belong to `SimpleObjExporter` (as opposed to
`SimpleObjImporter`)? -/
def ShelfButton.usesExporter : ShelfButton → Bool
  | ShelfButton.importer_shelf_button_clicked => false
  | ShelfButton.importer_shelf_button_alt_clicked => false
  | _ => true

/-- The two `class_instance` cells of a session. -/
structure SessionState where
  exporter_instance : Option Nat
  importer_instance : Option Nat
deriving DecidableEq, Repr

/-- One button press: `(state, exporters created, importers created)`. -/
def shelf_press (st : SessionState) (b : ShelfButton) : SessionState × Nat × Nat :=
  if b.usesExporter then
    match st.exporter_instance with
    | none => ({ st with exporter_instance := some 0 }, 1, 0)
    | some _ => (st, 0, 0)
  else
    match st.importer_instance with
    | none => ({ st with importer_instance := some 0 }, 0, 1)
    | some _ => (st, 0, 0)

/-- Run a sequence of shelf-button presses, accumulating creation counts. -/
def run_shelf : List ShelfButton → SessionState → SessionState × Nat × Nat
  | [], st => (st, 0, 0)
  | b :: rest, st =>
    let r := shelf_press st b
    let acc := run_shelf rest r.1
    (acc.1, r.2.1 + acc.2.1, r.2.2 + acc.2.2)

/-- The fresh session state: no instance of either class yet. -/
def freshSession : SessionState :=
  { exporter_instance := none, importer_instance := none }

/-! ## Event classifiers (used to count attempts and reports) -/

/-- Is this event an export attempt (`cmds.file(..., exportSelected=True)`)? -/
def isFileExportEvent : Event → Bool
  | Event.fileExport _ _ => true
  | _ => false

/-- Is this event an import attempt (`cmds.file(..., i=True)`)? -/
def isFileImportEvent : Event → Bool
  | Event.fileImport _ => true
  | _ => false

/-- Is this event an aggregate status report (`displayInfo` or
`displayWarning`, the channels `export_batch` reports its count on)? -/
def isReportEvent : Event → Bool
  | Event.displayInfo _ => true
  | Event.displayWarning _ => true
  | _ => false

/-! ## Concrete example values (used by witnesses and counterexamples) -/

/-- A concrete parameter record with every boolean off. -/
def paramsAllOff : Params :=
  { export_path := "C:/project/objExport/DefaultExport.obj",
    batch_export_path := "C:/project/objExport/batch",
    always_ask := false, triangulate_mesh := false, move_to_origin := false,
    combine := false, use_native_style := false, obj_groups := false,
    obj_ptgroups := false, obj_materials := false, obj_smoothing := false,
    obj_normals := false }

/-- A concrete parameter record with the `combine` flag set. -/
def paramsCombineOn : Params :=
  { paramsAllOff with combine := true }

/-- A concrete shape query: only `pCube1` has a shape child. -/
def shapesEx : String → Option (List String) :=
  fun node => if node = "pCube1" then some ["pCubeShape1"] else none

/-- A concrete import oracle: the translator raises on `a.obj` only. -/
def importOracleEx : String → Option String :=
  fun path => if path = "a.obj" then some "translator error" else none

/-- A concrete export oracle: the translator raises on every path. -/
def exportOracleFailEx : String → Except String String :=
  fun _ => Except.error "translator error"

/-- A concrete configuration: the scene settings node exists and stores
`triangulate_mesh = false`; the mesh `pCube1` carries an override attribute
`triangulate_mesh = true`; the JSON defaults (and the fallback params below)
say `true` everywhere, so only the scene node can be the source of a
`false`. -/
def cfgEx : ConfigState :=
  { sceneNodeExists := true,
    sceneAttrs := fun k =>
      match k with
      | ParamKey.triangulate_mesh => some (Sum.inr false)
      | _ => none,
    jsonExists := true,
    jsonParams := fun _ => Sum.inr true,
    meshAttrs := fun mesh k =>
      match mesh, k with
      | "pCube1", ParamKey.triangulate_mesh => some (Sum.inr true)
      | _, _ => none }

/-- The all-true fallback params used with `cfgEx`. -/
def baseParamsEx : ParamKey → PValue :=
  fun _ => Sum.inr true

/-! ## Theorems -/

/-! ### Helper lemmas on dropWhile and replaceChar -/

theorem dropWhile_head?_false {α : Type} {p : α → Bool} :
    ∀ {l : List α} {x : α}, (l.dropWhile p).head? = some x → p x = false := by
  intro l
  induction l with
  | nil => intro x h; simp [List.dropWhile] at h
  | cons a t ih =>
    intro x h
    by_cases hpa : p a
    · rw [List.dropWhile_cons, if_pos hpa] at h
      exact ih h
    · rw [List.dropWhile_cons, if_neg hpa] at h
      simp at h
      rw [← h]
      exact Bool.eq_false_iff.mpr hpa

theorem dropWhile_getLast?_eq {α : Type} {p : α → Bool} :
    ∀ {l : List α}, l.dropWhile p ≠ [] → (l.dropWhile p).getLast? = l.getLast? := by
  intro l
  induction l with
  | nil => intro h; simp [List.dropWhile] at h
  | cons a t ih =>
    intro h
    by_cases hpa : p a
    · rw [List.dropWhile_cons, if_pos hpa] at h ⊢
      cases t with
      | nil => simp [List.dropWhile] at h
      | cons b t2 => rw [List.getLast?_cons_cons]; exact ih h
    · rw [List.dropWhile_cons, if_neg hpa]

theorem dropWhile_eq_self_of_head? {α : Type} {p : α → Bool} :
    ∀ {l : List α}, (∀ x, l.head? = some x → p x = false) → l.dropWhile p = l := by
  intro l h
  cases l with
  | nil => rfl
  | cons a t =>
    rw [List.dropWhile_cons, if_neg]
    intro hpa
    exact absurd (h a rfl) (by simp [hpa])

theorem getLast?_map {α β : Type} (f : α → β) (l : List α) :
    (l.map f).getLast? = l.getLast?.map f := by
  rw [← List.head?_reverse, ← List.map_reverse, List.head?_map, List.head?_reverse]

theorem mem_replaceChar {c old new : Char} {l : List Char}
    (h : c ∈ replaceChar old new l) : c = new ∨ (c ∈ l ∧ c ≠ old) := by
  unfold replaceChar at h
  obtain ⟨x, hx, hfx⟩ := List.mem_map.mp h
  by_cases hxo : x = old
  · subst hxo
    rw [if_pos rfl] at hfx
    exact Or.inl hfx.symm
  · rw [if_neg hxo] at hfx
    subst hfx
    exact Or.inr ⟨hx, hxo⟩

theorem replaceChar_eq_self {old new : Char} :
    ∀ {l : List Char}, old ∉ l → replaceChar old new l = l := by
  intro l
  induction l with
  | nil => intro _; rfl
  | cons a t ih =>
    intro h
    have ha : a ≠ old := fun hao => h (hao ▸ List.mem_cons_self a t)
    have ht : old ∉ t := fun hot => h (List.mem_cons_of_mem a hot)
    unfold replaceChar at ih ⊢
    simp only [List.map_cons, if_neg ha, ih ht]

theorem not_strip_char {y : Char} (h : isStripChar y = false) :
    y ≠ ' ' ∧ y ≠ ':' ∧ y ≠ '|' := by
  simp [isStripChar] at h
  exact ⟨h.1.1, h.1.2, h.2⟩

theorem strip_head?_false {l : List Char} {y : Char}
    (h : (stripStripChars l).head? = some y) : isStripChar y = false := by
  unfold stripStripChars at h
  rw [List.head?_reverse] at h
  have hne : (l.dropWhile isStripChar).reverse.dropWhile isStripChar ≠ [] := by
    intro hnil
    rw [hnil] at h
    simp at h
  rw [dropWhile_getLast?_eq hne, List.getLast?_reverse] at h
  exact dropWhile_head?_false h

theorem strip_getLast?_false {l : List Char} {y : Char}
    (h : (stripStripChars l).getLast? = some y) : isStripChar y = false := by
  unfold stripStripChars at h
  rw [List.getLast?_reverse] at h
  exact dropWhile_head?_false h

theorem clean_head?_false {l : List Char} {x : Char}
    (h : (cleanFilenameChars l).head? = some x) : isStripChar x = false := by
  unfold cleanFilenameChars replaceChar at h
  rw [List.head?_map, List.head?_map] at h
  obtain ⟨u, hu, hg⟩ := Option.map_eq_some'.mp h
  obtain ⟨y, hy, hf⟩ := Option.map_eq_some'.mp hu
  have hys := not_strip_char (strip_head?_false hy)
  rw [if_neg hys.2.1] at hf
  subst hf
  rw [if_neg hys.2.2] at hg
  exact hg ▸ strip_head?_false hy

theorem clean_getLast?_false {l : List Char} {x : Char}
    (h : (cleanFilenameChars l).getLast? = some x) : isStripChar x = false := by
  unfold cleanFilenameChars replaceChar at h
  rw [getLast?_map, getLast?_map] at h
  obtain ⟨u, hu, hg⟩ := Option.map_eq_some'.mp h
  obtain ⟨y, hy, hf⟩ := Option.map_eq_some'.mp hu
  have hys := not_strip_char (strip_getLast?_false hy)
  rw [if_neg hys.2.1] at hf
  subst hf
  rw [if_neg hys.2.2] at hg
  exact hg ▸ strip_getLast?_false hy

theorem clean_no_colon (l : List Char) : ':' ∉ cleanFilenameChars l := by
  intro h
  unfold cleanFilenameChars at h
  rcases mem_replaceChar h with h1 | ⟨h2, _⟩
  · exact absurd h1 (by decide)
  · rcases mem_replaceChar h2 with h3 | ⟨_, h4⟩
    · exact absurd h3 (by decide)
    · exact h4 rfl

theorem clean_no_pipe (l : List Char) : '|' ∉ cleanFilenameChars l := by
  intro h
  unfold cleanFilenameChars at h
  rcases mem_replaceChar h with h1 | ⟨_, h2⟩
  · exact absurd h1 (by decide)
  · exact h2 rfl

theorem clean_idem_chars (l : List Char) :
    cleanFilenameChars (cleanFilenameChars l) = cleanFilenameChars l := by
  have hstrip : stripStripChars (cleanFilenameChars l) = cleanFilenameChars l := by
    unfold stripStripChars
    rw [dropWhile_eq_self_of_head? (fun x hx => clean_head?_false hx)]
    rw [dropWhile_eq_self_of_head? (fun x hx => by
      rw [List.head?_reverse] at hx
      exact clean_getLast?_false hx)]
    exact List.reverse_reverse _
  show replaceChar '|' '_' (replaceChar ':' '_' (stripStripChars (cleanFilenameChars l))) =
    cleanFilenameChars l
  rw [hstrip, replaceChar_eq_self (clean_no_colon l), replaceChar_eq_self (clean_no_pipe l)]

/-! ### Claim theorems -/

/-- C9: for every string `s`, `clean_filename s` contains no `':'` and no
`'|'` character, and `clean_filename` is idempotent:
`clean_filename (clean_filename s) = clean_filename s`. -/
theorem clean_filename_spec (s : String) :
    ':' ∉ (clean_filename s).data ∧ '|' ∉ (clean_filename s).data ∧
      clean_filename (clean_filename s) = clean_filename s := by
  refine ⟨clean_no_colon s.data, clean_no_pipe s.data, ?_⟩
  show (⟨cleanFilenameChars (cleanFilenameChars s.data)⟩ : String) = ⟨cleanFilenameChars s.data⟩
  rw [clean_idem_chars]

/-- C3: for every assignment of the five OBJ flags,
`build_obj_options_string` returns exactly the semicolon-delimited string
`groups=G;ptgroups=P;materials=M;smoothing=S;normals=N` in that key order,
each placeholder being `'1'` when the flag is true and `'0'` otherwise. -/
theorem build_obj_options_string_spec (p : Params) :
    build_obj_options_string p =
      "groups=" ++ (if p.obj_groups then "1" else "0") ++
      ";ptgroups=" ++ (if p.obj_ptgroups then "1" else "0") ++
      ";materials=" ++ (if p.obj_materials then "1" else "0") ++
      ";smoothing=" ++ (if p.obj_smoothing then "1" else "0") ++
      ";normals=" ++ (if p.obj_normals then "1" else "0") := by
  cases p
  rfl

/-- C7: `preprocess_mesh` issues the triangulation commands iff
`triangulate_mesh` is set; it moves the mesh to the origin — creating an
empty group at the origin, point-constraining the mesh to it, then deleting
the constraint and the group, in that order — iff `move_to_origin` is set;
and with both flags false it issues no command at all. -/
theorem preprocess_mesh_spec (p : Params) (mesh : String) :
    (Event.polyTriangulate ∈ preprocess_mesh p mesh ↔ p.triangulate_mesh = true) ∧
    (List.IsSuffix
      [Event.groupEmpty "temp_loc", Event.pointConstrain "temp_loc" mesh,
       Event.deletePointConstraint "temp_loc" mesh, Event.deleteNode "temp_loc"]
      (preprocess_mesh p mesh) ↔ p.move_to_origin = true) ∧
    (preprocess_mesh p mesh = [] ↔
      (p.triangulate_mesh = false ∧ p.move_to_origin = false)) := by
  cases htri : p.triangulate_mesh <;> cases hmov : p.move_to_origin <;>
    simp only [preprocess_mesh, htri, hmov, if_true, if_false, List.nil_append,
      List.append_nil] <;>
    refine ⟨by simp, ?_, by simp⟩
  · constructor
    · intro h
      have := h.length_le
      simp at this
    · intro h
      exact absurd h (by simp)
  · constructor
    · intro _
      trivial
    · intro _
      exact ⟨[], rfl⟩
  · constructor
    · intro h
      have := h.length_le
      simp at this
    · intro h
      exact absurd h (by simp)
  · constructor
    · intro _
      trivial
    · intro _
      exact ⟨[Event.selectReplace [mesh], Event.polyTriangulate], rfl⟩

/-- C10: a cancelled import dialog (host returns `None`) leaves the
stored import path list unchanged while `show_import_options` returns `False`; with
no paths stored beforehand, a cancelled dialog makes `import_pressed` warn
and import nothing; and `SimpleObjImporter.show_path_dialog` likewise keeps
its stored path on a cancelled dialog. -/
theorem import_cancel_spec :
    (∀ paths : List String, show_import_options none paths = (paths, false)) ∧
    (∀ importOracle : String → Option String,
      import_pressed none importOracle [] =
        ([], [Event.displayWarning "No valid paths for import set!"])) ∧
    (∀ stored : Option (List String), show_path_dialog none stored = stored) :=
  ⟨fun _ => rfl, fun _ => rfl, fun _ => rfl⟩

/-- Witness for C9 at a concrete string. -/
theorem clean_filename_spec_witness :
    clean_filename (clean_filename "|ns:pCube1 ") = clean_filename "|ns:pCube1 " :=
  (clean_filename_spec "|ns:pCube1 ").2.2

/-- Witness for C3 at a concrete parameter record. -/
theorem build_obj_options_string_spec_witness :
    build_obj_options_string paramsAllOff =
      "groups=0;ptgroups=0;materials=0;smoothing=0;normals=0" :=
  (build_obj_options_string_spec paramsAllOff).trans rfl

/-- Witness for C7 at a concrete parameter record and mesh. -/
theorem preprocess_mesh_spec_witness :
    preprocess_mesh paramsAllOff "pCube1" = [] :=
  (preprocess_mesh_spec paramsAllOff "pCube1").2.2.mpr ⟨rfl, rfl⟩

/-- Witness for C10 at a concrete stored path list. -/
theorem import_cancel_spec_witness :
    show_import_options none ["kept.obj"] = (["kept.obj"], false) :=
  import_cancel_spec.1 ["kept.obj"]

/-- C4: `export_mesh` never propagates the translator's `RuntimeError`: it
returns a boolean in both oracle outcomes.  On success it reports success
and returns `True`; on a `RuntimeError` it reports the error and returns
`False`; and in both cases the trace ends with the `finally` block: delete
the temporary duplicate, reselect the original mesh. -/
theorem export_mesh_spec (p : Params) (exportOracle : String → Except String String)
    (mesh : String) :
    (match exportOracle p.export_path with
     | Except.ok out_file =>
        (export_mesh p exportOracle mesh).1 = true ∧
        Event.displayInfo ("Successfully exported to " ++ out_file) ∈
          (export_mesh p exportOracle mesh).2
     | Except.error e =>
        (export_mesh p exportOracle mesh).1 = false ∧
        Event.displayError ("Unable to export " ++ mesh ++ ": " ++ e) ∈
          (export_mesh p exportOracle mesh).2) ∧
    List.IsSuffix [Event.deleteNode (dupeName mesh), Event.selectReplace [mesh]]
      (export_mesh p exportOracle mesh).2 := by
  cases h : exportOracle p.export_path with
  | ok out_file =>
    refine ⟨⟨?_, ?_⟩, ?_⟩
    · simp [export_mesh, h]
    · simp [export_mesh, h]
    · refine ⟨Event.duplicate mesh (dupeName mesh) ::
        preprocess_mesh p (dupeName mesh) ++
        [Event.selectReplace [dupeName mesh],
         Event.fileExport p.export_path (build_obj_options_string p),
         Event.displayInfo ("Successfully exported to " ++ out_file)], ?_⟩
      simp [export_mesh, h]
  | error e =>
    refine ⟨⟨?_, ?_⟩, ?_⟩
    · simp [export_mesh, h]
    · simp [export_mesh, h]
    · refine ⟨Event.duplicate mesh (dupeName mesh) ::
        preprocess_mesh p (dupeName mesh) ++
        [Event.selectReplace [dupeName mesh],
         Event.fileExport p.export_path (build_obj_options_string p),
         Event.displayError ("Unable to export " ++ mesh ++ ": " ++ e)], ?_⟩
      simp [export_mesh, h]

/-- Witness for C4: with a failing translator, `export_mesh` returns `False`
rather than raising. -/
theorem export_mesh_spec_witness :
    (export_mesh paramsAllOff exportOracleFailEx "pCube1").1 = false :=
  ((export_mesh_spec paramsAllOff exportOracleFailEx "pCube1").1).1

/-- C5: `export_pressed` never exports an invalid selection: an empty
transform selection opens the options dialog instead; if some selected
transform has no shape child, an error naming such a node (the first one)
is displayed and nothing is exported; and the export outcome occurs only
for a non-empty selection all of whose nodes have shape children. -/
theorem export_pressed_spec (shapes : String → Option (List String))
    (selection : List String) :
    (selection = [] → export_pressed shapes selection = PressedOutcome.showOptions) ∧
    ((∃ n ∈ selection, shapes n = none) →
      ∃ m ∈ selection, shapes m = none ∧
        export_pressed shapes selection = PressedOutcome.errorNotMesh m) ∧
    (∀ sel, export_pressed shapes selection = PressedOutcome.exported sel →
      sel = selection ∧ selection ≠ [] ∧ ∀ n ∈ selection, (shapes n).isSome) := by
  refine ⟨?_, ?_, ?_⟩
  · intro h
    subst h
    rfl
  · rintro ⟨n, hn, hnone⟩
    unfold export_pressed
    have hlen : ¬ selection.length = 0 := by
      cases selection with
      | nil => simp at hn
      | cons a t => simp
    rw [if_neg hlen]
    cases hf : selection.find? (fun node => (shapes node).isNone) with
    | none =>
      exfalso
      have := List.find?_eq_none.mp hf n hn
      simp [hnone] at this
    | some m =>
      refine ⟨m, List.mem_of_find?_eq_some hf, ?_, rfl⟩
      have := List.find?_some hf
      simpa using this
  · intro sel h
    unfold export_pressed at h
    by_cases hlen : selection.length = 0
    · rw [if_pos hlen] at h
      cases h
    · rw [if_neg hlen] at h
      cases hf : selection.find? (fun node => (shapes node).isNone) with
      | some m =>
        rw [hf] at h
        cases h
      | none =>
        rw [hf] at h
        injection h with h2
        subst h2
        refine ⟨rfl, ?_, ?_⟩
        · intro hnil
          subst hnil
          simp at hlen
        · intro n hn
          have hnp := List.find?_eq_none.mp hf n hn
          cases hs : shapes n with
          | none => exact absurd (by simp [hs]) hnp
          | some v => simp

/-- Witness for C5: a selection containing a shapeless transform yields the
error outcome, and an empty selection opens the options dialog. -/
theorem export_pressed_spec_witness :
    export_pressed shapesEx [] = PressedOutcome.showOptions ∧
    export_pressed shapesEx ["grp1"] = PressedOutcome.errorNotMesh "grp1" := by
  constructor
  · exact (export_pressed_spec shapesEx []).1 rfl
  · obtain ⟨m, hm, _, heq⟩ :=
      (export_pressed_spec shapesEx ["grp1"]).2.1 ⟨"grp1", by simp, by decide⟩
    cases List.mem_singleton.mp hm
    exact heq

/-- C6: `export_selection` dispatches on selection length and the `combine`
flag: a single mesh goes through the single-mesh path; several meshes with
`combine` set are duplicated, united into one combined mesh, exported via
the single-mesh path, and the combined copy deleted; several meshes with
`combine` unset go through batch export; and the trace always ends by
restoring the original selection. -/
theorem export_selection_spec (p : Params) (combinedName : String) :
    (∀ mesh, export_selection p combinedName [mesh] =
      [Step.loadSceneParams, Step.exportSingle mesh,
       Step.loadSceneParams, Step.selectReplace [mesh]]) ∧
    (∀ a b rest, p.combine = true →
      export_selection p combinedName (a :: b :: rest) =
        [Step.loadSceneParams, Step.duplicateAll (a :: b :: rest),
         Step.polyUniteTo combinedName, Step.deleteHistory combinedName,
         Step.exportSingle combinedName, Step.deleteNode combinedName,
         Step.loadSceneParams, Step.selectReplace (a :: b :: rest)]) ∧
    (∀ a b rest, p.combine = false →
      export_selection p combinedName (a :: b :: rest) =
        [Step.loadSceneParams, Step.exportBatch (a :: b :: rest),
         Step.loadSceneParams, Step.selectReplace (a :: b :: rest)]) ∧
    (∀ selection, (export_selection p combinedName selection).getLast? =
      some (Step.selectReplace selection)) := by
  refine ⟨fun mesh => rfl, ?_, ?_, ?_⟩
  · intro a b rest h
    simp [export_selection, combine_meshes, h]
  · intro a b rest h
    simp [export_selection, combine_meshes, h]
  · intro selection
    cases selection with
    | nil => rfl
    | cons a t =>
      cases t with
      | nil => rfl
      | cons b t2 =>
        cases hc : p.combine <;> simp [export_selection, combine_meshes, hc]

/-- Witness for C6: two meshes with `combine` set follow the
combine-then-single-export path. -/
theorem export_selection_spec_witness :
    export_selection paramsCombineOn "polySurface1" ["pCube1", "pCube2"] =
      [Step.loadSceneParams, Step.duplicateAll ["pCube1", "pCube2"],
       Step.polyUniteTo "polySurface1", Step.deleteHistory "polySurface1",
       Step.exportSingle "polySurface1", Step.deleteNode "polySurface1",
       Step.loadSceneParams, Step.selectReplace ["pCube1", "pCube2"]] :=
  (export_selection_spec paramsCombineOn "polySurface1").2.1 "pCube1" "pCube2" [] rfl

/-! ### Helper lemmas for the shelf-button session -/

theorem shelf_press_exporter_some {st : SessionState} (b : ShelfButton) {i : Nat}
    (h : st.exporter_instance = some i) :
    (shelf_press st b).1.exporter_instance = some i ∧ (shelf_press st b).2.1 = 0 := by
  cases hb : b.usesExporter <;>
    cases hei : st.exporter_instance <;>
    cases hii : st.importer_instance <;>
    simp_all [shelf_press]

theorem shelf_press_importer_some {st : SessionState} (b : ShelfButton) {i : Nat}
    (h : st.importer_instance = some i) :
    (shelf_press st b).1.importer_instance = some i ∧ (shelf_press st b).2.2 = 0 := by
  cases hb : b.usesExporter <;>
    cases hei : st.exporter_instance <;>
    cases hii : st.importer_instance <;>
    simp_all [shelf_press]

theorem run_shelf_exporter_some :
    ∀ (presses : List ShelfButton) {st : SessionState} {i : Nat},
    st.exporter_instance = some i →
    (run_shelf presses st).1.exporter_instance = some i ∧
      (run_shelf presses st).2.1 = 0 := by
  intro presses
  induction presses with
  | nil => intro st i h; exact ⟨h, rfl⟩
  | cons b rest ih =>
    intro st i h
    obtain ⟨h1, h2⟩ := shelf_press_exporter_some b h
    obtain ⟨h3, h4⟩ := ih h1
    simp [run_shelf, h2, h3, h4]

theorem run_shelf_importer_some :
    ∀ (presses : List ShelfButton) {st : SessionState} {i : Nat},
    st.importer_instance = some i →
    (run_shelf presses st).1.importer_instance = some i ∧
      (run_shelf presses st).2.2 = 0 := by
  intro presses
  induction presses with
  | nil => intro st i h; exact ⟨h, rfl⟩
  | cons b rest ih =>
    intro st i h
    obtain ⟨h1, h2⟩ := shelf_press_importer_some b h
    obtain ⟨h3, h4⟩ := ih h1
    simp [run_shelf, h2, h3, h4]

theorem run_shelf_created_le :
    ∀ (presses : List ShelfButton) (st : SessionState),
    (run_shelf presses st).2.1 ≤ 1 ∧ (run_shelf presses st).2.2 ≤ 1 := by
  intro presses
  induction presses with
  | nil => intro st; exact ⟨Nat.zero_le 1, Nat.zero_le 1⟩
  | cons b rest ih =>
    intro st
    cases hb : b.usesExporter
    · cases hii : st.importer_instance with
      | none =>
        have hsp : shelf_press st b = ({ st with importer_instance := some 0 }, 0, 1) := by
          simp [shelf_press, hb, hii]
        have h0 := @run_shelf_importer_some rest { st with importer_instance := some 0 } 0 rfl
        simp [run_shelf, hsp, h0.2]
        exact (ih _).1
      | some j =>
        have hsp : shelf_press st b = (st, 0, 0) := by
          simp [shelf_press, hb, hii]
        simp [run_shelf, hsp]
        exact ih st
    · cases hei : st.exporter_instance with
      | none =>
        have hsp : shelf_press st b = ({ st with exporter_instance := some 0 }, 1, 0) := by
          simp [shelf_press, hb, hei]
        have h0 := @run_shelf_exporter_some rest { st with exporter_instance := some 0 } 0 rfl
        simp [run_shelf, hsp, h0.2]
        exact (ih _).2
      | some j =>
        have hsp : shelf_press st b = (st, 0, 0) := by
          simp [shelf_press, hb, hei]
        simp [run_shelf, hsp]
        exact ih st

/-- C8: across any sequence of shelf-button presses in a fresh session, at
most one `SimpleObjExporter` and at most one `SimpleObjImporter` instance
are ever created; and a stored `class_instance` persists unchanged through
any further presses, with no new instance of its class created. -/
theorem shelf_button_singleton :
    (∀ presses : List ShelfButton,
      (run_shelf presses freshSession).2.1 ≤ 1 ∧
      (run_shelf presses freshSession).2.2 ≤ 1) ∧
    (∀ (presses : List ShelfButton) (st : SessionState) (i : Nat),
      st.exporter_instance = some i →
      (run_shelf presses st).1.exporter_instance = some i ∧
        (run_shelf presses st).2.1 = 0) ∧
    (∀ (presses : List ShelfButton) (st : SessionState) (i : Nat),
      st.importer_instance = some i →
      (run_shelf presses st).1.importer_instance = some i ∧
        (run_shelf presses st).2.2 = 0) :=
  ⟨fun presses => run_shelf_created_le presses freshSession,
   fun presses _ _ h => run_shelf_exporter_some presses h,
   fun presses _ _ h => run_shelf_importer_some presses h⟩

/-- Witness for C8: a concrete press sequence in a fresh session creates
exactly at most one instance of each class, and an existing instance
survives a further press. -/
theorem shelf_button_singleton_witness :
    (run_shelf [ShelfButton.export_shelf_button, ShelfButton.import_shelf_button,
       ShelfButton.importer_shelf_button_clicked] freshSession).2.1 ≤ 1 ∧
    (run_shelf [ShelfButton.export_shelf_button]
       { exporter_instance := some 3, importer_instance := none }).1.exporter_instance =
      some 3 := by
  constructor
  · exact (shelf_button_singleton.1 [ShelfButton.export_shelf_button,
      ShelfButton.import_shelf_button, ShelfButton.importer_shelf_button_clicked]).1
  · exact (shelf_button_singleton.2.1 [ShelfButton.export_shelf_button]
      { exporter_instance := some 3, importer_instance := none } 3 rfl).1

/-! ### Helper lemmas for batch counting -/

theorem export_mesh_one_attempt (p : Params)
    (exportOracle : String → Except String String) (mesh : String) :
    (export_mesh p exportOracle mesh).2.countP isFileExportEvent = 1 := by
  cases h : exportOracle p.export_path <;>
    cases htri : p.triangulate_mesh <;>
    cases hmov : p.move_to_origin <;>
    simp [export_mesh, preprocess_mesh, h, htri, hmov, List.countP_cons,
      List.countP_append, isFileExportEvent]

theorem export_batch_loop_counts (p : Params)
    (exportOracle : String → Except String String) :
    ∀ meshes : List String,
    (export_batch_loop p exportOracle meshes).1 +
        (export_batch_loop p exportOracle meshes).2.1 = meshes.length ∧
    (export_batch_loop p exportOracle meshes).2.2.countP isFileExportEvent =
      meshes.length := by
  intro meshes
  induction meshes with
  | nil => exact ⟨rfl, rfl⟩
  | cons curr_mesh rest ih =>
    have hone := export_mesh_one_attempt
      { p with export_path := batch_file_path p.batch_export_path curr_mesh }
      exportOracle curr_mesh
    cases hr : (export_mesh
        { p with export_path := batch_file_path p.batch_export_path curr_mesh }
        exportOracle curr_mesh).1 <;>
      constructor <;>
      simp [export_batch_loop, hr, List.countP_append, hone, ih.1, ih.2] <;>
      omega

theorem import_loop_counts (importOracle : String → Option String) :
    ∀ paths : List String,
    (import_loop importOracle paths).countP isFileImportEvent = paths.length ∧
    (import_loop importOracle paths).countP isReportEvent = 0 := by
  intro paths
  induction paths with
  | nil => exact ⟨rfl, rfl⟩
  | cons import_path rest ih =>
    cases h : importOracle import_path <;>
      constructor <;>
      simp [import_loop, h, List.countP_append, List.countP_cons,
        isFileImportEvent, isReportEvent, ih.1, ih.2]

/-- C2 counterexample: importing two chosen paths where the first raises —
the loop continues (both paths are attempted) but the trace contains no
aggregate success/failure report at all (no `displayInfo`/`displayWarning`),
only the per-item error, so the claimed aggregate count is never reported
for the import batch operation. -/
theorem import_no_aggregate_report :
    (import_pressed (some ["a.obj", "b.obj"]) importOracleEx []).2 =
      [Event.fileImport "a.obj",
       Event.displayError "Unable to import OBJ file a.obj, due to translator error",
       Event.fileImport "b.obj"] ∧
    (import_pressed (some ["a.obj", "b.obj"]) importOracleEx []).2.countP
        isFileImportEvent = 2 ∧
    (import_pressed (some ["a.obj", "b.obj"]) importOracleEx []).2.countP
        isReportEvent = 0 :=
  ⟨rfl, rfl, rfl⟩

/-- C2 (amended): batch export over `n` meshes (with a valid batch
directory) attempts every mesh regardless of per-item failures and reports
an aggregate success/failure count with `successful + failed = n`;
the import loop likewise attempts every path past per-item failures, but it
reports only per-item errors and no aggregate count. -/
theorem batch_report_spec (p : Params)
    (exportOracle : String → Except String String) (meshes : List String)
    (importOracle : String → Option String) (paths : List String) :
    ((export_batch_loop p exportOracle meshes).1 +
        (export_batch_loop p exportOracle meshes).2.1 = meshes.length) ∧
    ((export_batch_loop p exportOracle meshes).2.2.countP isFileExportEvent =
      meshes.length) ∧
    (export_batch p true exportOracle meshes =
      (export_batch_loop p exportOracle meshes).2.2 ++
        [if (export_batch_loop p exportOracle meshes).2.1 > 0 then
          Event.displayWarning
            (batchReportMsg (export_batch_loop p exportOracle meshes).1 meshes.length)
         else
          Event.displayInfo
            (batchReportMsg (export_batch_loop p exportOracle meshes).1 meshes.length)]) ∧
    ((import_loop importOracle paths).countP isFileImportEvent = paths.length) ∧
    ((import_loop importOracle paths).countP isReportEvent = 0) := by
  obtain ⟨hsum, hcount⟩ := export_batch_loop_counts p exportOracle meshes
  obtain ⟨hicount, hireport⟩ := import_loop_counts importOracle paths
  refine ⟨hsum, hcount, ?_, hicount, hireport⟩
  have hdef : export_batch p true exportOracle meshes =
      (export_batch_loop p exportOracle meshes).2.2 ++
        [if (export_batch_loop p exportOracle meshes).2.1 > 0 then
          Event.displayWarning
            (batchReportMsg (export_batch_loop p exportOracle meshes).1
              ((export_batch_loop p exportOracle meshes).1 +
                (export_batch_loop p exportOracle meshes).2.1))
         else
          Event.displayInfo
            (batchReportMsg (export_batch_loop p exportOracle meshes).1
              ((export_batch_loop p exportOracle meshes).1 +
                (export_batch_loop p exportOracle meshes).2.1))] := rfl
  rw [hdef, hsum]

/-- C1: the export flow resolves settings from the scene node (falling back
to JSON defaults only when the scene node must first be created) and never
consults the exported mesh's own override attributes: the resolved params
are invariant under arbitrary changes to every mesh's attributes, and in the
concrete configuration `cfgEx` — scene node says `triangulate_mesh = false`,
the exported mesh `pCube1` carries an override saying `true` — the export
runs with `false`.  This contradicts the claimed override tier (and the
source's own comments about checking overrides). -/
theorem export_params_ignore_mesh_overrides :
    (∀ (st : ConfigState) (params0 : ParamKey → PValue) (mesh : String)
        (f : String → ParamKey → Option PValue),
      params_at_export { st with meshAttrs := f } params0 mesh =
        params_at_export st params0 mesh) ∧
    params_at_export cfgEx baseParamsEx "pCube1" ParamKey.triangulate_mesh =
      Sum.inr false :=
  ⟨fun st _ _ _ => by
    obtain ⟨sne, sa, je, jp, ma⟩ := st
    cases sne <;> rfl, rfl⟩
